import Mathlib

/-!
Verification of the NewsAlgo article classification engine and preference
matcher, as implemented in the repository's classification algorithms
(calculate_reading_level, calculate_information_density, estimate_bias,
estimate_propaganda, extract_topics) and the article filtering query
(structural Stage A query plus the post-query numeric Stage B filter).

Texts are modelled as lists of characters.  Python string primitives are
embedded directly: `str.lower` as an ASCII case fold, `re.findall(r'\w+', s)`
as the maximal runs of word characters, `str.split()` as the maximal runs of
non-whitespace characters, and `term in text` as the list infix relation.
Scores are exact rationals; the source's float arithmetic on these formulas
is exact division, so no rounding is lost.
-/

set_option maxRecDepth 100000
set_option maxHeartbeats 2000000

namespace NewsAlgo

/-- ASCII case fold of one character, modelling Python `str.lower`. -/
def lowerChar (c : Char) : Char :=
  if 65 ≤ c.toNat ∧ c.toNat ≤ 90 then Char.ofNat (c.toNat + 32) else c

/-- Lowercase an entire text, modelling `text.lower()`. -/
def lowerText (t : List Char) : List Char := t.map lowerChar

/-- Maximal runs of characters satisfying `keep`; `acc` is the current run,
reversed. -/
def runsAux (keep : Char → Bool) : List Char → List Char → List (List Char)
  | [], acc => if acc = [] then [] else [acc.reverse]
  | c :: cs, acc =>
    if keep c then runsAux keep cs (c :: acc)
    else if acc = [] then runsAux keep cs [] else acc.reverse :: runsAux keep cs []

/-- Maximal non-empty runs of characters satisfying `keep`. -/
def runs (keep : Char → Bool) (t : List Char) : List (List Char) := runsAux keep t []

/-- A regex word character (`\w`): alphanumeric or underscore. -/
def isWordChar (c : Char) : Bool := c.isAlphanum || c = '_'

/-- Word tokens of a text, modelling `re.findall(r'\w+', text)`. -/
def findWords (t : List Char) : List (List Char) := runs isWordChar t

/-- Whitespace split, modelling Python `str.split()` (no empty tokens). -/
def pySplit (t : List Char) : List (List Char) := runs (fun c => !c.isWhitespace) t

/-- Modelled from the spec: the sentence splitter.  The repository calls
NLTK's `sent_tokenize` with a `simple_tokenize` fallback whose code is not in
the sources; the spec describes it as a simple punctuation-based splitter on
`.`, `!`, `?`.  Segments holding no word (empty or all whitespace) are not
sentences, matching the spec's worked example of two sentences. -/
def sentSplit (t : List Char) : List (List Char) :=
  (runs (fun c => !(c = '.' || c = '!' || c = '?')) t).filter (fun s => pySplit s ≠ [])

/-- Embeds `calculate_reading_level`: default 5 on empty text or no
sentences, else average words per sentence (whitespace split, as in
`len(s.split())`) divided by 3, clamped to `[1, 10]`. -/
def calculate_reading_level (text : List Char) : ℚ :=
  if text = [] then 5
  else if sentSplit text = [] then 5
  else
    min 10 (max 1 ((((sentSplit text).map (fun s => (pySplit s).length)).sum : ℚ) /
      ((sentSplit text).length : ℚ) / 3))

/-- Embeds `calculate_information_density`: default 5 on empty text or no
word tokens, else the distinct-to-total word ratio scaled by 20 and clamped
to `[1, 10]`. -/
def calculate_information_density (text : List Char) : ℚ :=
  if text = [] then 5
  else if findWords (lowerText text) = [] then 5
  else
    min 10 (max 1 (((findWords (lowerText text)).dedup.length : ℚ) /
      ((findWords (lowerText text)).length : ℚ) * 20))

/-- The fixed left-leaning keyword list of `estimate_bias`. -/
def left_bias_terms : List (List Char) :=
  ["progressive".data, "liberal".data, "democrat".data, "socialism".data,
   "green new deal".data, "universal healthcare".data]

/-- The fixed right-leaning keyword list of `estimate_bias`. -/
def right_bias_terms : List (List Char) :=
  ["conservative".data, "republican".data, "trump".data, "tax cuts".data,
   "border wall".data, "deregulation".data]

/-- One hit per listed term occurring as a substring of the text, embedding
`sum(term in text for term in terms)`. -/
def countHits (terms : List (List Char)) (t : List Char) : ℕ :=
  terms.countP (fun term => decide (term <:+: t))

/-- Embeds `estimate_bias`: default 5 on empty text; 10 when the two keyword
hit counts are equal (the source's extra `total == 0` branch is kept even
though it is unreachable); otherwise `10 - imbalance * 9` clamped to
`[1, 10]`. -/
def estimate_bias (text : List Char) : ℚ :=
  if text = [] then 5
  else if countHits left_bias_terms (lowerText text) =
      countHits right_bias_terms (lowerText text) then 10
  else if countHits left_bias_terms (lowerText text) +
      countHits right_bias_terms (lowerText text) = 0 then 10
  else
    min 10 (max 1 (10 -
      |(countHits left_bias_terms (lowerText text) : ℚ) -
        (countHits right_bias_terms (lowerText text) : ℚ)| /
      ((countHits left_bias_terms (lowerText text) : ℚ) +
        (countHits right_bias_terms (lowerText text) : ℚ)) * 9))

/-- The fixed indicator list of `estimate_propaganda`, in source order. -/
def propaganda_indicators : List (List Char) :=
  ["must".data, "always".data, "never".data, "every".data, "all".data, "none".data,
   "everyone".data, "nobody".data, "undoubtedly".data, "certainly".data,
   "absolutely".data, "obviously".data, "clearly".data, "definitely".data,
   "!!".data, "??".data, "BREAKING".data, "EXCLUSIVE".data]

/-- Embeds `estimate_propaganda`: default 5 on empty text or zero word
count, else `10 - indicators per 100 words` clamped to `[1, 10]`. -/
def estimate_propaganda (text : List Char) : ℚ :=
  if text = [] then 5
  else if (findWords (lowerText text)).length = 0 then 5
  else
    min 10 (max 1 (10 - (countHits propaganda_indicators (lowerText text) : ℚ) /
      (((findWords (lowerText text)).length : ℚ) / 100)))

/-- The indicator list with the two all-caps entries removed: the comparison
definition for the refinement claim that those entries are dead. -/
def propaganda_indicators_lowercase : List (List Char) :=
  ["must".data, "always".data, "never".data, "every".data, "all".data, "none".data,
   "everyone".data, "nobody".data, "undoubtedly".data, "certainly".data,
   "absolutely".data, "obviously".data, "clearly".data, "definitely".data,
   "!!".data, "??".data]

/-- `estimate_propaganda` with `BREAKING` and `EXCLUSIVE` dropped from the
indicator list; otherwise identical. -/
def estimate_propaganda_no_caps (text : List Char) : ℚ :=
  if text = [] then 5
  else if (findWords (lowerText text)).length = 0 then 5
  else
    min 10 (max 1 (10 - (countHits propaganda_indicators_lowercase (lowerText text) : ℚ) /
      (((findWords (lowerText text)).length : ℚ) / 100)))

/-- The fixed topic table of `extract_topics`, in source order. -/
def topic_keywords : List (List Char × List (List Char)) :=
  [("politics".data, ["politics".data, "government".data, "election".data,
      "president".data, "congress".data, "senate".data, "democracy".data]),
   ("business".data, ["business".data, "economy".data, "market".data, "stock".data,
      "finance".data, "company".data, "industry".data]),
   ("technology".data, ["technology".data, "tech".data, "ai".data, "software".data,
      "hardware".data, "internet".data, "app".data, "digital".data]),
   ("science".data, ["science".data, "research".data, "study".data, "discovery".data,
      "scientist".data, "physics".data, "chemistry".data, "biology".data]),
   ("health".data, ["health".data, "medical".data, "medicine".data, "disease".data,
      "doctor".data, "patient".data, "hospital".data, "wellness".data]),
   ("sports".data, ["sports".data, "game".data, "team".data, "player".data,
      "tournament".data, "championship".data, "league".data, "score".data]),
   ("entertainment".data, ["entertainment".data, "movie".data, "film".data,
      "music".data, "celebrity".data, "actor".data, "director".data, "tv".data,
      "television".data]),
   ("world".data, ["world".data, "international".data, "global".data, "foreign".data,
      "country".data, "nation".data, "diplomatic".data, "crisis".data])]

/-- The lowercased combination `f"{title} {text}"` used by `extract_topics`. -/
def combinedText (text title : List Char) : List Char :=
  lowerText (title ++ ' ' :: text)

/-- Topic labels whose keyword set hits the combined text, in table order. -/
def detected_topics (text title : List Char) : List (List Char) :=
  (topic_keywords.filter
    (fun p => p.2.any (fun kw => decide (kw <:+: combinedText text title)))).map Prod.fst

/-- Embeds `extract_topics`: `["uncategorized"]` when both inputs are empty
or when no keyword matches, else the detected labels. -/
def extract_topics (text title : List Char) : List (List Char) :=
  if text = [] ∧ title = [] then ["uncategorized".data]
  else if detected_topics text title = [] then ["uncategorized".data]
  else detected_topics text title

/-- `topics_filter_type` of a preference record. -/
inductive TopicsFilterType
  | AND
  | OR
deriving DecidableEq

/-- The classification record attached to an article. -/
structure Classification where
  reading_level : ℚ
  information_density : ℚ
  bias_score : ℚ
  propaganda_score : ℚ
  length : ℕ
  topics : List (List Char)
  region : List Char

/-- An article as seen by the matcher; `published_date` in days. -/
structure Article where
  published_date : ℤ
  is_paywalled : Bool
  classification : Option Classification

/-- A user preference record. -/
structure UserPreferences where
  reading_level : ℚ
  information_density : ℚ
  bias_threshold : ℚ
  propaganda_threshold : ℚ
  max_length : ℕ
  min_length : ℕ
  topics : List (List Char)
  regions : List (List Char)
  show_paywalled : Bool
  topics_filter_type : TopicsFilterType
  max_age_days : ℤ

/-- The topic clause of the structural query: `$all` over the preference
topics in AND mode, `$in` in OR mode, vacuous when no topics are chosen.
An article with no classification cannot match an active clause. -/
def topicFilter (prefs : UserPreferences) (a : Article) : Bool :=
  if prefs.topics = [] then true
  else
    match a.classification with
    | none => false
    | some c =>
      match prefs.topics_filter_type with
      | .AND => prefs.topics.all (fun t => decide (t ∈ c.topics))
      | .OR => prefs.topics.any (fun t => decide (t ∈ c.topics))

/-- Stage A, the structural MongoDB query built from the preferences:
paywall, recency, topics, regions and the length bounds (skipped at their
`0` / `5000` sentinels). -/
def stageA (prefs : UserPreferences) (now : ℤ) (a : Article) : Bool :=
  (prefs.show_paywalled || !a.is_paywalled) &&
  (if 0 < prefs.max_age_days then decide (now - prefs.max_age_days ≤ a.published_date)
   else true) &&
  topicFilter prefs a &&
  (if prefs.regions = [] then true
   else
     match a.classification with
     | none => false
     | some c => decide (c.region ∈ prefs.regions)) &&
  (if 0 < prefs.min_length then
     match a.classification with
     | none => false
     | some c => decide (prefs.min_length ≤ c.length)
   else true) &&
  (if prefs.max_length < 5000 then
     match a.classification with
     | none => false
     | some c => decide (c.length ≤ prefs.max_length)
   else true)

/-- Stage B, the post-query numeric filter: centered width-4 windows for
reading level and information density, one-sided inclusive minimums for the
bias and propaganda scores; articles without a classification are dropped. -/
def stageB (prefs : UserPreferences) (a : Article) : Bool :=
  match a.classification with
  | none => false
  | some c =>
    decide (prefs.reading_level - 2 ≤ c.reading_level) &&
    decide (c.reading_level ≤ prefs.reading_level + 2) &&
    decide (prefs.information_density - 2 ≤ c.information_density) &&
    decide (c.information_density ≤ prefs.information_density + 2) &&
    decide (prefs.bias_threshold ≤ c.bias_score) &&
    decide (prefs.propaganda_threshold ≤ c.propaganda_score)

/-- The two-stage preference matcher over an already-sorted candidate list:
the structural query as a filter, then the numeric refinement filter. -/
def matchArticles (prefs : UserPreferences) (now : ℤ) (candidates : List Article) : List Article :=
  (candidates.filter (stageA prefs now)).filter (stageB prefs)

/-- The spec's reading-level example text. -/
def catText : List Char := "The cat sat. The cat sat on the mat.".data

/-- A text with two left-keyword hits and no right-keyword hit. -/
def lrText : List Char := "progressive liberal".data

/-- A non-empty text with no word tokens. -/
def dotsText : List Char := "...".data

/-- A 100-word text whose only indicator hits are `every` and `everyone`,
both inside its first word. -/
def propagandaText : List Char := "everyone".data ++ (List.replicate 99 " cat".data).flatten

/-- A title hitting the business keywords `stock` and `market`. -/
def c7Title : List Char := "Stock market update".data

/-- A body hitting the technology keywords `software` and `tech`. -/
def c7Body : List Char := "New software tools lift the tech sector.".data

/-- A classification sitting on the window and threshold boundaries of the
Stage B demo preferences. -/
def c2Class : Classification := ⟨7, 3, 7, 19/2, 100, [], []⟩

/-- An article carrying `c2Class`. -/
def c2Article : Article := ⟨0, false, some c2Class⟩

/-- Preferences with reading level 5, density 5, bias threshold 7 and
propaganda threshold 2. -/
def c2Prefs : UserPreferences := ⟨5, 5, 7, 2, 5000, 0, [], [], true, .OR, 30⟩

/-- A classification tagged with the single topic `technology`. -/
def c8Class : Classification := ⟨5, 5, 5, 5, 100, ["technology".data], []⟩

/-- An article carrying `c8Class`. -/
def c8Article : Article := ⟨0, false, some c8Class⟩

/-- AND-mode preferences asking for both `technology` and `health`. -/
def c8AndPrefs : UserPreferences :=
  ⟨5, 5, 1, 1, 5000, 0, ["technology".data, "health".data], [], true, .AND, 30⟩

/-- OR-mode preferences asking for `technology` or `health`. -/
def c8OrPrefs : UserPreferences :=
  ⟨5, 5, 1, 1, 5000, 0, ["technology".data, "health".data], [], true, .OR, 30⟩

/-- Fully permissive preferences for the ordering demo. -/
def c9Prefs : UserPreferences := ⟨5, 5, 1, 1, 5000, 0, [], [], true, .OR, 30⟩

/-- Ordering demo article published on day 10. -/
def c9Article1 : Article := ⟨10, false, none⟩

/-- Ordering demo article published on day 3. -/
def c9Article2 : Article := ⟨3, false, none⟩

/-- Bound of the clamp used by every score formula. -/
theorem clamp_mem (x : ℚ) : 1 ≤ min 10 (max 1 x) ∧ min 10 (max 1 x) ≤ 10 :=
  ⟨le_min (by norm_num) (le_max_left 1 x), min_le_left 10 _⟩

/-- Claim C1: for every input text each of the four calculators returns a
value in the closed interval `[1, 10]`: every formula branch is clamped and
every default branch returns 5 or 10. -/
theorem scores_in_range (text : List Char) :
    (1 ≤ calculate_reading_level text ∧ calculate_reading_level text ≤ 10) ∧
    (1 ≤ calculate_information_density text ∧ calculate_information_density text ≤ 10) ∧
    (1 ≤ estimate_bias text ∧ estimate_bias text ≤ 10) ∧
    (1 ≤ estimate_propaganda text ∧ estimate_propaganda text ≤ 10) := by
  refine ⟨?_, ?_, ?_, ?_⟩
  · rw [calculate_reading_level]
    split_ifs <;> first | exact clamp_mem _ | norm_num
  · rw [calculate_information_density]
    split_ifs <;> first | exact clamp_mem _ | norm_num
  · rw [estimate_bias]
    split_ifs <;> first | exact clamp_mem _ | norm_num
  · rw [estimate_propaganda]
    split_ifs <;> first | exact clamp_mem _ | norm_num

/-- Claim C1 witness at a concrete text. -/
theorem scores_in_range_witness :
    1 ≤ calculate_reading_level catText ∧ estimate_bias catText ≤ 10 :=
  ⟨(scores_in_range catText).1.1, (scores_in_range catText).2.2.1.2⟩

/-- Claim C4: on empty input every calculator short-circuits to the fixed
default 5. -/
theorem defaults_on_empty :
    calculate_reading_level [] = 5 ∧ calculate_information_density [] = 5 ∧
    estimate_bias [] = 5 ∧ estimate_propaganda [] = 5 :=
  ⟨rfl, rfl, rfl, rfl⟩

/-- Claim C5: the reading level is 5 on empty text or zero sentences, and
otherwise the clamped average sentence length over 3; the spec's two-sentence
example evaluates to `3/2`. -/
theorem calculate_reading_level_spec :
    (∀ text : List Char, text = [] ∨ sentSplit text = [] →
      calculate_reading_level text = 5) ∧
    (∀ text : List Char, text ≠ [] → sentSplit text ≠ [] →
      calculate_reading_level text =
        min 10 (max 1 ((((sentSplit text).map (fun s => (pySplit s).length)).sum : ℚ) /
          ((sentSplit text).length : ℚ) / 3))) ∧
    calculate_reading_level catText = 3 / 2 := by
  have hbranch : ∀ text : List Char, text ≠ [] → sentSplit text ≠ [] →
      calculate_reading_level text =
        min 10 (max 1 ((((sentSplit text).map (fun s => (pySplit s).length)).sum : ℚ) /
          ((sentSplit text).length : ℚ) / 3)) := by
    intro text h1 h2
    rw [calculate_reading_level, if_neg h1, if_neg h2]
  refine ⟨?_, hbranch, ?_⟩
  · intro text h
    rcases h with h | h
    · rw [calculate_reading_level, if_pos h]
    · rw [calculate_reading_level]
      rcases eq_or_ne text [] with he | he
      · rw [if_pos he]
      · rw [if_neg he, if_pos h]
  · have hs : sentSplit catText = ["The cat sat".data, " The cat sat on the mat".data] := by
      decide
    have h1 : pySplit ("The cat sat".data) = ["The".data, "cat".data, "sat".data] := by
      decide
    have h2 : (pySplit (" The cat sat on the mat".data)).length = 6 := by decide
    rw [hbranch catText (by decide) (by rw [hs]; simp), hs]
    rw [List.map_cons, List.map_cons, List.map_nil, h1, h2]
    norm_num [min_def, max_def]

/-- Claim C5 witness: the default branch at the empty text and the formula
branch at the spec's example. -/
theorem calculate_reading_level_spec_witness :
    calculate_reading_level [] = 5 ∧ calculate_reading_level catText = 3 / 2 :=
  ⟨calculate_reading_level_spec.1 [] (Or.inl rfl), calculate_reading_level_spec.2.2⟩

/-- Claim C6: the propaganda score is 5 whenever the text has no word
tokens, and otherwise the clamped `10 - indicators per 100 words`; two
indicator hits in a 100-word text give 8. -/
theorem estimate_propaganda_spec :
    (∀ text : List Char, (findWords (lowerText text)).length = 0 →
      estimate_propaganda text = 5) ∧
    (∀ text : List Char, (findWords (lowerText text)).length ≠ 0 →
      estimate_propaganda text =
        min 10 (max 1 (10 - (countHits propaganda_indicators (lowerText text) : ℚ) /
          (((findWords (lowerText text)).length : ℚ) / 100)))) ∧
    estimate_propaganda propagandaText = 8 := by
  have h0 : ∀ text : List Char, (findWords (lowerText text)).length = 0 →
      estimate_propaganda text = 5 := by
    intro text h
    rw [estimate_propaganda]
    rcases eq_or_ne text [] with he | he
    · rw [if_pos he]
    · rw [if_neg he, if_pos h]
  have h1 : ∀ text : List Char, (findWords (lowerText text)).length ≠ 0 →
      estimate_propaganda text =
        min 10 (max 1 (10 - (countHits propaganda_indicators (lowerText text) : ℚ) /
          (((findWords (lowerText text)).length : ℚ) / 100))) := by
    intro text h
    have hne : text ≠ [] := by
      intro he
      subst he
      exact h rfl
    rw [estimate_propaganda, if_neg hne, if_neg h]
  refine ⟨h0, h1, ?_⟩
  have hw : (findWords (lowerText propagandaText)).length = 100 := by decide
  have hc : countHits propaganda_indicators (lowerText propagandaText) = 2 := by decide
  rw [h1 propagandaText (by rw [hw]; norm_num), hw, hc]
  norm_num [min_def, max_def]

/-- Claim C6 witness: a wordless text and the 100-word two-hit text. -/
theorem estimate_propaganda_spec_witness :
    estimate_propaganda dotsText = 5 ∧ estimate_propaganda propagandaText = 8 :=
  ⟨estimate_propaganda_spec.1 dotsText (by decide), estimate_propaganda_spec.2.2⟩

/-- An ASCII case fold never produces an uppercase ASCII letter. -/
theorem lowerChar_not_upper (c : Char) :
    ¬ (65 ≤ (lowerChar c).toNat ∧ (lowerChar c).toNat ≤ 90) := by
  unfold lowerChar
  split_ifs with h
  · obtain ⟨h1, h2⟩ := h
    revert h1 h2
    generalize c.toNat = n
    intro h1 h2
    interval_cases n <;> decide
  · exact h

/-- No uppercase ASCII letter occurs in a lowercased text. -/
theorem upper_not_mem_lowerText (c : Char) (hc : 65 ≤ c.toNat ∧ c.toNat ≤ 90)
    (t : List Char) : c ∉ lowerText t := by
  intro hmem
  obtain ⟨d, _, hd⟩ := List.mem_map.mp hmem
  exact lowerChar_not_upper d (hd ▸ hc)

/-- The two all-caps indicators never hit a lowercased text. -/
theorem countHits_caps_zero (t : List Char) :
    countHits (["BREAKING".data, "EXCLUSIVE".data]) (lowerText t) = 0 := by
  have hB : ¬ ("BREAKING".data <:+: lowerText t) := fun h =>
    upper_not_mem_lowerText 'B' (by decide) t (h.subset (by decide))
  have hE : ¬ ("EXCLUSIVE".data <:+: lowerText t) := fun h =>
    upper_not_mem_lowerText 'E' (by decide) t (h.subset (by decide))
  have hB' : decide ("BREAKING".data <:+: lowerText t) = false := decide_eq_false hB
  have hE' : decide ("EXCLUSIVE".data <:+: lowerText t) = false := decide_eq_false hE
  simp [countHits, List.countP_cons, hB', hE']

/-- Hit counting distributes over appended term lists. -/
theorem countHits_append (l1 l2 : List (List Char)) (t : List Char) :
    countHits (l1 ++ l2) t = countHits l1 t + countHits l2 t :=
  List.countP_append _ _ _

/-- Claim C10: `BREAKING` and `EXCLUSIVE` contribute zero hits on the
lowercased text, so the propaganda score coincides with the variant whose
indicator list omits them. -/
theorem estimate_propaganda_caps_spec (text : List Char) :
    countHits (["BREAKING".data, "EXCLUSIVE".data]) (lowerText text) = 0 ∧
    estimate_propaganda text = estimate_propaganda_no_caps text := by
  refine ⟨countHits_caps_zero text, ?_⟩
  have hsplit : countHits propaganda_indicators (lowerText text) =
      countHits propaganda_indicators_lowercase (lowerText text) := by
    calc countHits propaganda_indicators (lowerText text)
        = countHits (propaganda_indicators_lowercase ++ ["BREAKING".data, "EXCLUSIVE".data])
            (lowerText text) := rfl
      _ = countHits propaganda_indicators_lowercase (lowerText text) +
            countHits (["BREAKING".data, "EXCLUSIVE".data]) (lowerText text) :=
          countHits_append _ _ _
      _ = countHits propaganda_indicators_lowercase (lowerText text) := by
          rw [countHits_caps_zero, Nat.add_zero]
  rw [estimate_propaganda, estimate_propaganda_no_caps, hsplit]

/-- Claim C3 counterexample: the empty text has equal (zero) left and right
keyword counts, yet the bias score is the default 5, not 10. -/
theorem estimate_bias_equal_counts_counterexample :
    countHits left_bias_terms (lowerText []) = countHits right_bias_terms (lowerText []) ∧
    estimate_bias [] ≠ 10 :=
  ⟨rfl, by decide⟩

/-- Claim C3 (amended to non-empty text): equal keyword counts give 10,
unequal counts give the clamped imbalance formula, the empty text gives the
default 5, and a text with two left hits and no right hit scores 1. -/
theorem estimate_bias_spec :
    (∀ text : List Char, text ≠ [] →
      estimate_bias text =
        (if countHits left_bias_terms (lowerText text) =
            countHits right_bias_terms (lowerText text) then 10
         else min 10 (max 1 (10 -
           |(countHits left_bias_terms (lowerText text) : ℚ) -
             (countHits right_bias_terms (lowerText text) : ℚ)| /
           ((countHits left_bias_terms (lowerText text) : ℚ) +
             (countHits right_bias_terms (lowerText text) : ℚ)) * 9)))) ∧
    estimate_bias [] = 5 ∧
    estimate_bias lrText = 1 := by
  have hmain : ∀ text : List Char, text ≠ [] →
      estimate_bias text =
        (if countHits left_bias_terms (lowerText text) =
            countHits right_bias_terms (lowerText text) then 10
         else min 10 (max 1 (10 -
           |(countHits left_bias_terms (lowerText text) : ℚ) -
             (countHits right_bias_terms (lowerText text) : ℚ)| /
           ((countHits left_bias_terms (lowerText text) : ℚ) +
             (countHits right_bias_terms (lowerText text) : ℚ)) * 9))) := by
    intro text hne
    rw [estimate_bias, if_neg hne]
    rcases eq_or_ne (countHits left_bias_terms (lowerText text))
        (countHits right_bias_terms (lowerText text)) with he | he
    · rw [if_pos he, if_pos he]
    · have hsum : ¬ (countHits left_bias_terms (lowerText text) +
          countHits right_bias_terms (lowerText text) = 0) := by
        intro h0
        exact he (by omega)
      rw [if_neg he, if_neg hsum, if_neg he]
  refine ⟨hmain, rfl, ?_⟩
  have hl : countHits left_bias_terms (lowerText lrText) = 2 := by decide
  have hr : countHits right_bias_terms (lowerText lrText) = 0 := by decide
  rw [hmain lrText (by decide), hl, hr, if_neg (by decide)]
  norm_num [min_def, max_def]

/-- Claim C3 witness: a keyword-free text is scored neutral. -/
theorem estimate_bias_spec_witness : estimate_bias ("abc".data) = 10 := by
  have h := estimate_bias_spec.1 ("abc".data) (by decide)
  rw [h, if_pos (by decide)]

/-- The label `uncategorized` is not a table label. -/
theorem uncategorized_not_label : ("uncategorized".data) ∉ topic_keywords.map Prod.fst := by
  decide

/-- The eight table labels are pairwise distinct. -/
theorem topic_labels_nodup : (topic_keywords.map Prod.fst).Nodup := by decide

/-- No table keyword occurs in the one-space combination of empty inputs. -/
theorem no_keyword_hits_space :
    ∀ p ∈ topic_keywords, ∀ kw ∈ p.2, ¬ kw <:+: ([' '] : List Char) := by decide

/-- Membership in the detected-label list is exactly a keyword hit, for
table entries. -/
theorem mem_detected_topics (text title : List Char) (p : List Char × List (List Char))
    (hp : p ∈ topic_keywords) :
    p.1 ∈ detected_topics text title ↔
      (p.2.any (fun kw => decide (kw <:+: combinedText text title))) = true := by
  simp only [detected_topics]
  constructor
  · intro h
    obtain ⟨q, hq, hq1⟩ := List.mem_map.mp h
    obtain ⟨hqtk, hqpred⟩ := List.mem_filter.mp hq
    have hqp : q = p := List.inj_on_of_nodup_map topic_labels_nodup hqtk hp hq1
    rwa [hqp] at hqpred
  · intro h
    exact List.mem_map.mpr ⟨p, List.mem_filter.mpr ⟨hp, h⟩, rfl⟩

/-- The detected-label list is empty exactly when no keyword hits. -/
theorem detected_topics_eq_nil_iff (text title : List Char) :
    detected_topics text title = [] ↔
      ∀ p ∈ topic_keywords, ∀ kw ∈ p.2, ¬ kw <:+: combinedText text title := by
  simp only [detected_topics, List.map_eq_nil_iff, List.filter_eq_nil_iff,
    List.any_eq_true, decide_eq_true_eq]
  constructor
  · intro h p hp kw hkw hinf
    exact h p hp ⟨kw, hkw, hinf⟩
  · intro h p hp hex
    obtain ⟨kw, hkw, hinf⟩ := hex
    exact h p hp kw hkw hinf

/-- Claim C7: the topic list is never empty; a table label is returned iff
one of its keywords occurs in the lowercase combined title and text; and the
result is exactly `["uncategorized"]` iff no keyword hits or both inputs are
empty. -/
theorem extract_topics_spec (text title : List Char) :
    extract_topics text title ≠ [] ∧
    (∀ p ∈ topic_keywords,
      (p.1 ∈ extract_topics text title ↔ ∃ kw ∈ p.2, kw <:+: combinedText text title)) ∧
    (extract_topics text title = ["uncategorized".data] ↔
      ((∀ p ∈ topic_keywords, ∀ kw ∈ p.2, ¬ kw <:+: combinedText text title) ∨
        (text = [] ∧ title = []))) := by
  by_cases hempty : text = [] ∧ title = []
  · have hcomb : combinedText text title = [' '] := by
      obtain ⟨h1, h2⟩ := hempty
      subst h1
      subst h2
      rfl
    have hnokw : ∀ p ∈ topic_keywords, ∀ kw ∈ p.2, ¬ kw <:+: combinedText text title := by
      rw [hcomb]
      exact no_keyword_hits_space
    have hres : extract_topics text title = ["uncategorized".data] := by
      rw [extract_topics, if_pos hempty]
    refine ⟨by rw [hres]; simp, ?_, ?_⟩
    · intro p hp
      rw [hres]
      constructor
      · intro hmem
        exfalso
        have hpu : p.1 = "uncategorized".data := by simpa using hmem
        exact uncategorized_not_label (hpu ▸ List.mem_map_of_mem Prod.fst hp)
      · intro hex
        exfalso
        obtain ⟨kw, hkw, hinf⟩ := hex
        exact hnokw p hp kw hkw hinf
    · rw [hres]
      exact iff_of_true rfl (Or.inr hempty)
  · have hresform : extract_topics text title =
        (if detected_topics text title = [] then ["uncategorized".data]
         else detected_topics text title) := by
      rw [extract_topics, if_neg hempty]
    by_cases hdet : detected_topics text title = []
    · have hres : extract_topics text title = ["uncategorized".data] := by
        rw [hresform, if_pos hdet]
      have hnokw := (detected_topics_eq_nil_iff text title).mp hdet
      refine ⟨by rw [hres]; simp, ?_, ?_⟩
      · intro p hp
        rw [hres]
        constructor
        · intro hmem
          exfalso
          have hpu : p.1 = "uncategorized".data := by simpa using hmem
          exact uncategorized_not_label (hpu ▸ List.mem_map_of_mem Prod.fst hp)
        · intro hex
          exfalso
          obtain ⟨kw, hkw, hinf⟩ := hex
          exact hnokw p hp kw hkw hinf
      · rw [hres]
        exact iff_of_true rfl (Or.inl hnokw)
    · have hres : extract_topics text title = detected_topics text title := by
        rw [hresform, if_neg hdet]
      refine ⟨by rw [hres]; exact hdet, ?_, ?_⟩
      · intro p hp
        rw [hres, mem_detected_topics text title p hp]
        simp [List.any_eq_true]
      · rw [hres]
        constructor
        · intro huncat
          exfalso
          have hmem : ("uncategorized".data) ∈ detected_topics text title := by
            rw [huncat]
            exact List.mem_singleton_self _
          simp only [detected_topics] at hmem
          obtain ⟨q, hq, hq1⟩ := List.mem_map.mp hmem
          obtain ⟨hqtk, _⟩ := List.mem_filter.mp hq
          have h2 : q.1 ∈ topic_keywords.map Prod.fst := List.mem_map_of_mem Prod.fst hqtk
          rw [hq1] at h2
          exact uncategorized_not_label h2
        · intro hor
          rcases hor with hno | hemp
          · exact absurd ((detected_topics_eq_nil_iff text title).mpr hno) hdet
          · exact absurd hemp hempty

/-- Claim C7 witness: a text hitting business and technology keywords is
tagged with both labels at once. -/
theorem extract_topics_spec_witness :
    ("business".data) ∈ extract_topics c7Body c7Title ∧
    ("technology".data) ∈ extract_topics c7Body c7Title := by
  constructor
  · exact ((extract_topics_spec c7Body c7Title).2.1
      ("business".data, ["business".data, "economy".data, "market".data, "stock".data,
        "finance".data, "company".data, "industry".data]) (by decide)).mpr (by decide)
  · exact ((extract_topics_spec c7Body c7Title).2.1
      ("technology".data, ["technology".data, "tech".data, "ai".data, "software".data,
        "hardware".data, "internet".data, "app".data, "digital".data]) (by decide)).mpr
      (by decide)

/-- Claim C2: for an article that carries a classification, the Stage B
filter keeps it exactly when the reading level and information density fall
in the closed centered windows and the bias and propaganda scores meet their
inclusive one-sided minimums. -/
theorem stageB_spec (prefs : UserPreferences) (a : Article) (c : Classification)
    (h : a.classification = some c) :
    stageB prefs a = true ↔
      (prefs.reading_level - 2 ≤ c.reading_level ∧
       c.reading_level ≤ prefs.reading_level + 2 ∧
       prefs.information_density - 2 ≤ c.information_density ∧
       c.information_density ≤ prefs.information_density + 2 ∧
       prefs.bias_threshold ≤ c.bias_score ∧
       prefs.propaganda_threshold ≤ c.propaganda_score) := by
  simp only [stageB, h]
  simp [Bool.and_eq_true, decide_eq_true_eq, and_assoc]

/-- Claim C2 witness: an article exactly on the upper reading window edge,
the lower density window edge and the bias threshold, with a propaganda
score far above its threshold, is kept. -/
theorem stageB_spec_witness : stageB c2Prefs c2Article = true :=
  (stageB_spec c2Prefs c2Article c2Class rfl).mpr (by norm_num [c2Prefs, c2Class])

/-- Claim C8: with a non-empty preference topic set, AND mode keeps an
article iff its topic set contains every preferred topic, and OR mode keeps
it iff some preferred topic is among its topics. -/
theorem topicFilter_spec (prefs : UserPreferences) (a : Article) (c : Classification)
    (hc : a.classification = some c) (hne : prefs.topics ≠ []) :
    (prefs.topics_filter_type = TopicsFilterType.AND →
      (topicFilter prefs a = true ↔ ∀ t ∈ prefs.topics, t ∈ c.topics)) ∧
    (prefs.topics_filter_type = TopicsFilterType.OR →
      (topicFilter prefs a = true ↔ ∃ t ∈ prefs.topics, t ∈ c.topics)) := by
  constructor
  · intro hty
    rw [topicFilter, if_neg hne, hc, hty]
    simp [List.all_eq_true]
  · intro hty
    rw [topicFilter, if_neg hne, hc, hty]
    simp [List.any_eq_true]

/-- Claim C8 witness: preferences for technology and health against an
article tagged only technology; AND excludes it, OR includes it. -/
theorem topicFilter_spec_witness :
    topicFilter c8AndPrefs c8Article = false ∧ topicFilter c8OrPrefs c8Article = true := by
  have hA := (topicFilter_spec c8AndPrefs c8Article c8Class rfl (by decide)).1 rfl
  have hO := (topicFilter_spec c8OrPrefs c8Article c8Class rfl (by decide)).2 rfl
  constructor
  · have hnot : ¬ (topicFilter c8AndPrefs c8Article = true) := fun htrue =>
      (by decide : ¬ ∀ t ∈ c8AndPrefs.topics, t ∈ c8Class.topics) (hA.mp htrue)
    simpa using hnot
  · exact hO.mpr (by decide)

/-- Claim C9: the matcher is the two filter stages composed, so its output
is exactly the surviving articles as a subsequence of the input, and an
input sorted by descending published date yields a sorted output. -/
theorem matchArticles_spec (prefs : UserPreferences) (now : ℤ) (l : List Article) :
    matchArticles prefs now l =
      l.filter (fun a => stageA prefs now a && stageB prefs a) ∧
    (matchArticles prefs now l).Sublist l ∧
    (l.Pairwise (fun a b : Article => b.published_date ≤ a.published_date) →
      (matchArticles prefs now l).Pairwise
        (fun a b : Article => b.published_date ≤ a.published_date)) := by
  have hsub : (matchArticles prefs now l).Sublist l :=
    (List.filter_sublist _).trans (List.filter_sublist _)
  refine ⟨?_, hsub, fun hsort => hsort.sublist hsub⟩
  rw [matchArticles, List.filter_filter]
  exact List.filter_congr (fun a _ => Bool.and_comm _ _)

/-- Claim C9 witness: a date-descending two-article candidate list gives a
date-descending output. -/
theorem matchArticles_spec_witness :
    (matchArticles c9Prefs 0 [c9Article1, c9Article2]).Pairwise
      (fun a b : Article => b.published_date ≤ a.published_date) :=
  (matchArticles_spec c9Prefs 0 [c9Article1, c9Article2]).2.2 (by decide)

end NewsAlgo
